import Mathlib

/-!
Verification of the task selection, execution and failure-isolation engine of
the analytics exporter (exporter/main.py, exporter/tasks.py,
exporter/course_export.py), as a shallow embedding.  External collaborators
(the shell, S3, MySQL, the CourseKey parser of the opaque-keys library and the
missing exporter/util.py helpers) are modelled as explicit parameters; the
control flow and string manipulation of the source files are translated
directly.
-/

namespace Exporter

/-! ### Path helpers (os.path.join / dirname / basename restricted to the
forms the exporter uses: relative second component, slash-separated paths). -/

/-- Model of os.path.join for the cases used by the exporter (the second
component is a relative filename or subdirectory). -/
def joinPath (a b : String) : String :=
  if b.startsWith "/" then b
  else if a = "" then b
  else if a.endsWith "/" then a ++ b
  else a ++ "/" ++ b

/-- Model of os.path.dirname on slash separated paths (the exporter only calls
it on work-dir relative artifact paths, never on root-level paths). -/
def dirname (p : String) : String :=
  let parts := p.splitOn "/"
  if parts.length ≤ 1 then "" else String.intercalate "/" parts.dropLast

/-- Model of os.path.basename on slash separated paths. -/
def basename (p : String) : String :=
  (p.splitOn "/").getLastD p

/-! ### Character substitution (tasks.py:24-32 and the regex step of
course_export.py:145-159). -/

/-- tasks.py:24-32: substitute every character whose code point is strictly
greater than 128 with an underscore; all other characters are kept. -/
def _substitute_non_ascii_chars (s : String) : String :=
  String.mk (s.data.map (fun c => if c.toNat > 128 then '_' else c))

/-- The safe character set named by the spec: ASCII letters, digits,
underscore, period and hyphen (Char.isAlpha / Char.isDigit are ASCII-only,
matching the default semantics of the regex class [^\w\.\-] used by
course_export.get_filename_safe_course_id). -/
def safeCharB (c : Char) : Bool :=
  c.isAlpha || c.isDigit || c == '_' || c == '.' || c == '-'

/-- course_export.py:159: the substitution step of get_filename_safe_course_id,
re.sub applied to the already-built stem (the CourseKey parse that produces the
stem is an external collaborator). -/
def get_filename_safe_sub (replacement : Char) (s : String) : String :=
  String.mk (s.data.map (fun c => if safeCharB c then c else replacement))

/-! ### Filesystem model: a list of (path, contents) files plus a set of
directories, enough for write / remove / exists and mkdir. -/

structure FS where
  files : List (String × String)
  dirs : List String
deriving DecidableEq

def FS.empty : FS := ⟨[], []⟩

def FS.getFile (fs : FS) (p : String) : Option String :=
  (fs.files.find? (fun q => q.1 == p)).map (fun q => q.2)

def FS.writeFile (fs : FS) (p c : String) : FS :=
  { fs with files := (p, c) :: fs.files.filter (fun q => !(q.1 == p)) }

def FS.removeFile (fs : FS) (p : String) : FS :=
  { fs with files := fs.files.filter (fun q => !(q.1 == p)) }

def FS.existsFile (fs : FS) (p : String) : Bool :=
  (fs.getFile p).isSome

/-- tasks.py:51-55 ensure_filename_directory_exists: os.mkdir of the dirname
when it is not yet a directory (idempotent create). -/
def ensure_filename_directory_exists (filename : String) (fs : FS) : FS :=
  let d := dirname filename
  if fs.dirs.contains d then fs else { fs with dirs := d :: fs.dirs }

/-! Basic lemmas about the filesystem model. -/

theorem FS.getFile_writeFile_self (fs : FS) (p c : String) :
    (fs.writeFile p c).getFile p = some c := by
  simp [FS.writeFile, FS.getFile]

theorem FS.find?_filter_ne (l : List (String × String)) (p q : String) (h : p ≠ q) :
    (l.filter (fun r => !(r.1 == q))).find? (fun r => r.1 == p) =
      l.find? (fun r => r.1 == p) := by
  induction l with
  | nil => rfl
  | cons a l ih =>
    by_cases ha : a.1 = p
    · have hq : (a.1 == q) = false := beq_eq_false_iff_ne.mpr (ha ▸ h)
      have hp : (a.1 == p) = true := beq_iff_eq.mpr ha
      rw [List.filter_cons, hq]
      simp only [Bool.not_false, if_pos, List.find?, hp]
    · have hp : (a.1 == p) = false := beq_eq_false_iff_ne.mpr ha
      by_cases haq : a.1 = q
      · have hq : (a.1 == q) = true := beq_iff_eq.mpr haq
        rw [List.filter_cons, hq]
        simp only [Bool.not_true, if_neg, ih, List.find?, hp, Bool.false_eq_true,
          not_false_eq_true]
      · have hq : (a.1 == q) = false := beq_eq_false_iff_ne.mpr haq
        rw [List.filter_cons, hq]
        simp only [Bool.not_false, if_pos, List.find?, hp, ih]

theorem FS.getFile_writeFile_other (fs : FS) (p q c : String) (h : p ≠ q) :
    (fs.writeFile q c).getFile p = fs.getFile p := by
  have hq : (q == p) = false := by
    simp
    exact fun hc => h hc.symm
  simp [FS.writeFile, FS.getFile, List.find?, hq, FS.find?_filter_ne fs.files p q h]

theorem FS.getFile_removeFile_self (fs : FS) (p : String) :
    (fs.removeFile p).getFile p = none := by
  simp only [FS.removeFile, FS.getFile]
  rw [List.find?_eq_none.mpr]
  · rfl
  · intro x hx
    have := (List.mem_filter.mp hx).2
    simp at this ⊢
    exact this

/-! ### Execution context: the kwargs mapping threaded through the batch
(main.py).  Top-level keys map to string values; each task iteration receives
a shallow copy of the original mapping (main.py:135). -/

/-- The kwargs mapping: an association list of top-level keys to values. -/
def Ctx : Type := List (String × String)

instance : DecidableEq Ctx := by
  unfold Ctx
  infer_instance

/-- Python kwargs[k] lookup (first binding wins, as in a dict snapshot). -/
def ctxGet (c : Ctx) (k : String) : Option String :=
  List.lookup k c

/-- Python kwargs[k] = v on a dict: rebind the key. -/
def ctxSet (c : Ctx) (k v : String) : Ctx :=
  (k, v) :: c.filter (fun q => !(q.1 == k))

/-- copy(original_kwargs) (main.py:135): a shallow copy has the same top-level
bindings; in the pure embedding it is the identical association list. -/
def copyDict (c : Ctx) : Ctx := c

/-! ### Filename construction (tasks.py FilenameMixin / OrgTask / CourseTask /
ForumsTask).  The CourseKey.from_string parse performed by get_course_name is
an external collaborator (opaque-keys); its result is passed in as a
CourseKeyParts record. -/

/-- tasks.py:57-66 get_filename_template: the single template
(entity)-(task NAME)-(kwargs name).(EXT), with the four pieces interpolated. -/
def get_filename_template (entity taskName nameKw ext : String) : String :=
  entity ++ "-" ++ taskName ++ "-" ++ nameKw ++ "." ++ ext

/-- The structured form of a parsed course identifier, as returned by the
external CourseKey.from_string collaborator. -/
structure CourseKeyParts where
  org : String
  course : String
  runName : String
  ccx : Option String
deriving DecidableEq

/-- tasks.py:104-110 CourseTask.get_course_name: join org/course/run (plus a
ccx suffix when the key has one) with hyphens. -/
def get_course_name (k : CourseKeyParts) : String :=
  match k.ccx with
  | some c => String.intercalate "-" [k.org, k.course, k.runName, "ccx", c]
  | none => String.intercalate "-" [k.org, k.course, k.runName]

/-- tasks.py:112-115 CourseTask.entity_name. -/
def courseEntityName (k : CourseKeyParts) : String :=
  _substitute_non_ascii_chars (get_course_name k)

/-- tasks.py:87-90 OrgTask.entity_name. -/
def orgEntityName (organization : String) : String :=
  _substitute_non_ascii_chars organization

/-- tasks.py:92-96 OrgTask.get_filename: work_dir joined with the standard
template, ensuring the parent directory exists. -/
def OrgTask.get_filename (organization taskName nameKw ext workDir : String)
    (fs : FS) : String × FS :=
  let filename := joinPath workDir
    (get_filename_template (orgEntityName organization) taskName nameKw ext)
  (filename, ensure_filename_directory_exists filename fs)

/-- tasks.py:117-124 CourseTask.get_filename: work_dir (plus the optional
SUBDIR) joined with the standard template, ensuring the parent directory
exists. -/
def CourseTask.get_filename (k : CourseKeyParts) (subdir : Option String)
    (taskName nameKw ext workDir : String) (fs : FS) : String × FS :=
  let template := get_filename_template (courseEntityName k) taskName nameKw ext
  let filename :=
    match subdir with
    | some sd => joinPath (joinPath workDir sd) template
    | none => joinPath workDir template
  (filename, ensure_filename_directory_exists filename fs)

/-- tasks.py:171 MongoTask.EXT. -/
def MongoTask.EXT : String := "mongo"

/-- tasks.py:918 ForumsTask.NAME. -/
def ForumsTask.NAME : String := ""

/-- ForumsTask inherits EXT from MongoTask (no override on the class or on
CourseTask/FilenameMixin in its method resolution order). -/
def ForumsTask.EXT : String := MongoTask.EXT

/-- tasks.py:921-933 ForumsTask.get_filename: the legacy template
(course entity)-(environment).(EXT) joined onto work_dir, with no task-name
component and no directory creation. -/
def ForumsTask.get_filename (k : CourseKeyParts) (environment workDir : String)
    (fs : FS) : String × FS :=
  let template := courseEntityName k ++ "-" ++ environment ++ "." ++ ForumsTask.EXT
  (joinPath workDir template, fs)

/-! ### The task runner (main.py:128-160).  A task is abstracted by its
resolved filename, the outcome of its backend call on a given context
(success, FatalTaskError, or any other exception), whether a failing backend
leaves a partially written output file behind, the top-level context keys the
task rebinds while running (ghost data used to state isolation), and whether
the class is OrgEmailOptInTask (main.py:137 uses an identity check). -/

/-- Outcome of one backend invocation (tasks.py Task.run subclasses). -/
inductive Outcome where
  | success
  | fatal
  | failure
deriving DecidableEq

/-- Abstract task descriptor as seen by main.run_tasks / main._run_task. -/
structure ATask where
  pyName : String
  getFilename : Ctx → String
  outcome : Ctx → Outcome
  leavesPartialOutput : Bool := false
  sets : List (String × String) := []
  isOrgEmailOptIn : Bool := false

/-- Contents of every placeholder failure file (tasks.py:80). -/
def failedMessage : String := "An error occurred generating this file.\n"

/-- Contents standing for whatever a successful backend writes. -/
def taskOutputData : String := "data"

/-- Contents standing for a partially written output left by a failing
backend. -/
def halfWrittenData : String := "partial"

/-- tasks.py:72-82 FilenameMixin.write_failed_file: recompute the filename,
remove it if it exists, and write the fixed failure message at
filename + ".failed", returning that placeholder path. -/
def write_failed_file (t : ATask) (kwargs : Ctx) (fs : FS) : String × FS :=
  let filename := t.getFilename kwargs
  let fs1 := if fs.existsFile filename then fs.removeFile filename else fs
  let failedFilename := filename ++ ".failed"
  (failedFilename, fs1.writeFile failedFilename failedMessage)

/-- The value of a task's context copy after the task has rebound its keys
(ghost data: e.g. OrgEmailOptInTask.run sets max_tries, comma_sep_courses and
all_organizations on its own kwargs, tasks.py:985-991). -/
def taskMutatedCtx (t : ATask) (kwargs : Ctx) : Ctx :=
  t.sets.foldl (fun c kv => ctxSet c kv.1 kv.2) kwargs

/-- main.py:146-160 _run_task: resolve the filename, run the backend; return
the filename on success, re-raise FatalTaskError, and on any other exception
write the failure placeholder and return its path.  The third component of
the ok value is the task's view of its (mutated) context copy, ghost data for
the isolation claims. -/
def _run_task (t : ATask) (kwargs : Ctx) (fs : FS) :
    Except Unit (String × FS × Ctx) :=
  let filename := t.getFilename kwargs
  let mutated := taskMutatedCtx t kwargs
  match t.outcome kwargs with
  | .success => .ok (filename, fs.writeFile filename taskOutputData, mutated)
  | .fatal => .error ()
  | .failure =>
      let fs1 := if t.leavesPartialOutput then fs.writeFile filename halfWrittenData else fs
      let r := write_failed_file t kwargs fs1
      .ok (r.1, r.2, mutated)

/-- main.py:137 - the guard that skips OrgEmailOptInTask on the edge
environment. -/
def envIsEdge (kwargs : Ctx) : Bool :=
  ctxGet kwargs "environment" == some "edge"

/-- Result of a batch that completed: the artifact list returned by
run_tasks, plus ghost instrumentation (final filesystem, which tasks ran,
the context handed to each loop iteration, and each run task's mutated
context copy). -/
structure RunOk where
  artifacts : List String
  fs : FS
  executed : List ATask
  entries : List Ctx
  mutated : List Ctx

/-- Ghost record carried by a propagating FatalTaskError: the filesystem at
the raise, the tasks completed before it, the contexts of the processed
iterations, their mutated copies, and the raising task. -/
structure RunErr where
  fs : FS
  executed : List ATask
  entries : List Ctx
  mutated : List Ctx
  raisedBy : ATask

/-- The loop body of main.py:128-143 run_tasks, with accumulators. -/
def run_tasks_go (originalKwargs : Ctx) :
    List ATask → FS → List String → List ATask → List Ctx → List Ctx →
      Except RunErr RunOk
  | [], fs, arts, ex, en, mu => .ok ⟨arts, fs, ex, en, mu⟩
  | t :: rest, fs, arts, ex, en, mu =>
      let kwargs := copyDict originalKwargs
      if t.isOrgEmailOptIn && envIsEdge kwargs then
        run_tasks_go originalKwargs rest fs arts ex (en ++ [kwargs]) mu
      else
        match _run_task t kwargs fs with
        | .ok (name, fs1, mc) =>
            run_tasks_go originalKwargs rest fs1 (arts ++ [name]) (ex ++ [t])
              (en ++ [kwargs]) (mu ++ [mc])
        | .error _ => .error ⟨fs, ex, en ++ [kwargs], mu, t⟩

/-- main.py:128-143 run_tasks: iterate the task list, handing each task a
copy of the original kwargs, skipping OrgEmailOptInTask on edge, collecting
one artifact per run task, and letting FatalTaskError propagate. -/
def run_tasks (taskList : List ATask) (originalKwargs : Ctx) (fs : FS) :
    Except RunErr RunOk :=
  run_tasks_go originalKwargs taskList fs [] [] [] []

/-- Artifact list of a batch (a propagated exception returns none to the
caller). -/
def artifactsOfRun : Except RunErr RunOk → List String
  | .ok r => r.artifacts
  | .error _ => []

def executedOfRun : Except RunErr RunOk → List ATask
  | .ok r => r.executed
  | .error e => e.executed

def entriesOfRun : Except RunErr RunOk → List Ctx
  | .ok r => r.entries
  | .error e => e.entries

def mutatedOfRun : Except RunErr RunOk → List Ctx
  | .ok r => r.mutated
  | .error e => e.mutated

def fsOfRun : Except RunErr RunOk → FS
  | .ok r => r.fs
  | .error e => e.fs

/-- The artifact a task contributes on a non-fatal outcome: its resolved
filename, or the ".failed" placeholder when the backend failed. -/
def artifactOf (kwargs : Ctx) (t : ATask) : String :=
  match t.outcome kwargs with
  | .failure => t.getFilename kwargs ++ ".failed"
  | _ => t.getFilename kwargs

/-! ### CopyS3FileTask.run (tasks.py:244-320).  The awscli, the S3 bucket
and the retrying execute_shell helper are external; they are modelled by an
S3World record saying whether the aws executable is found, whether the
head-object calls for the marker and the source succeed (a missing object
surfaces as subprocess.CalledProcessError), and whether the final copy
succeeds.  The run returns the ordered list of shell invocations it made,
each with the max_tries value present in the kwargs passed to
execute_shell. -/

/-- tasks.py:20-21. -/
def MAX_TRIES_FOR_MARKER_FILE_CHECK : Nat := 5

def MAX_TRIES_FOR_COPY_FILE_FROM_S3 : Nat := 5

inductive TaskException where
  | fatalTaskError (msg : String)
  | calledProcessError
deriving DecidableEq

/-- The kwargs keys CopyS3FileTask.run reads: external_prefix, environment,
pipeline_bucket, and the optional max_tries consumed by execute_shell. -/
structure CopyKw where
  externalPfx : String
  environment : String
  pipelineBucket : String
  maxTries : Option Nat
deriving DecidableEq

/-- External state of the S3 world and the local machine. -/
structure S3World where
  awsFound : Bool
  markerExists : Bool
  sourceExists : Bool
  copySucceeds : Bool
deriving DecidableEq

/-- One recorded execute_shell invocation with the max_tries in force. -/
inductive S3Act where
  | shell (cmd : String) (maxTries : Option Nat)
deriving DecidableEq

/-- tasks.py:256-260: the S3 key of the source object. -/
def s3SourceKey (kw : CopyKw) (filename : String) : String :=
  kw.externalPfx ++ "/" ++ kw.environment ++ "/" ++ basename filename

/-- tasks.py:261-265: the S3 key of the success marker. -/
def s3MarkerKey (kw : CopyKw) : String :=
  kw.externalPfx ++ "/" ++ kw.environment ++ "/job_success/_SUCCESS"

/-- tasks.py:277: the head-object command template. -/
def headCmd (bucket key : String) : String :=
  "aws s3api head-object --bucket " ++ bucket ++ " --key " ++ key

/-- tasks.py:309-313: the copy command. -/
def cpCmd (bucket src dest : String) : String :=
  "aws s3 cp s3://" ++ bucket ++ "/" ++ src ++ " " ++ dest

/-- tasks.py:248-320 CopyS3FileTask.run.  The marker head-object runs with a
per-task copy of the kwargs whose max_tries is raised to
MAX_TRIES_FOR_MARKER_FILE_CHECK; the source head-object runs with the
original kwargs; the copy runs with another per-task copy whose max_tries is
MAX_TRIES_FOR_COPY_FILE_FROM_S3.  A failing marker check is converted to
FatalTaskError; a missing source completes the task; a failing copy
re-raises CalledProcessError. -/
def CopyS3FileTask.run (filename : String) (dryRun : Bool) (kw : CopyKw)
    (w : S3World) : Except TaskException (List S3Act) :=
  if !w.awsFound then
    .error (.fatalTaskError "The CopyS3FileTask task requires the awscli")
  else
    let srcKey := s3SourceKey kw filename
    let markerKey := s3MarkerKey kw
    if dryRun then .ok []
    else
      let markerCommand := headCmd kw.pipelineBucket markerKey
      let sourceCommand := headCmd kw.pipelineBucket srcKey
      if !w.markerExists then
        .error (.fatalTaskError ("Unable to find success marker for export " ++ markerKey))
      else
        let acts := [S3Act.shell markerCommand (some MAX_TRIES_FOR_MARKER_FILE_CHECK)]
        let acts := acts ++ [S3Act.shell sourceCommand kw.maxTries]
        if !w.sourceExists then .ok acts
        else
          let copyCommand := cpCmd kw.pipelineBucket srcKey filename
          if w.copySucceeds then
            .ok (acts ++ [S3Act.shell copyCommand (some MAX_TRIES_FOR_COPY_FILE_FROM_S3)])
          else .error .calledProcessError

/-! ### Task selection (main.py:117-125 and the DEFAULT_TASKS catalog,
tasks.py:994-1046).  Each concrete task class is an OrgTask or a CourseTask;
the selector's task_cls argument is one of OrgTask, CourseTask or Task.  The
filter_keys helper lives in exporter/util.py, which is not part of the
sources; it is modelled from the spec.  available_tasks (main.py:118) and the
dict behind list(filtered_tasks.items()) (main.py:123) are Python 2 dicts:
the order in which they enumerate their entries is CPython 2's hash-table
order, an interpreter internal that the source does not determine (the
repository's own test_main.py sorts the selector's output before comparing
it), so the embedding takes that enumeration as an external parameter. -/

inductive Scope where
  | org
  | course
deriving DecidableEq

structure TaskC where
  pyName : String
  scope : Scope
deriving DecidableEq

/-- The three classes main.py passes as task_cls. -/
inductive SelCls where
  | orgTaskCls
  | courseTaskCls
  | taskCls
deriving DecidableEq

/-- issubclass(task, task_cls) for the catalog members. -/
def matchesCls (c : SelCls) (t : TaskC) : Bool :=
  match c with
  | .orgTaskCls => t.scope == Scope.org
  | .courseTaskCls => t.scope == Scope.course
  | .taskCls => true

/-- tasks.py:994-1046: the DEFAULT_TASKS catalog in declaration order
(commented-out AI tasks excluded); OrgEmailOptInTask is the only org-scope
member. -/
def DEFAULT_TASKS : List TaskC := [
  ⟨"UserIDMapTask", .course⟩,
  ⟨"StudentModuleTask", .course⟩,
  ⟨"TeamsTask", .course⟩,
  ⟨"TeamsMembershipTask", .course⟩,
  ⟨"CourseEnrollmentTask", .course⟩,
  ⟨"CourseGradesTask", .course⟩,
  ⟨"SubsectionGradesTask", .course⟩,
  ⟨"GeneratedCertificateTask", .course⟩,
  ⟨"AuthUserTask", .course⟩,
  ⟨"AuthUserProfileTask", .course⟩,
  ⟨"StudentLanguageProficiencyTask", .course⟩,
  ⟨"WikiArticleTask", .course⟩,
  ⟨"WikiArticleRevisionTask", .course⟩,
  ⟨"UserCourseTagTask", .course⟩,
  ⟨"ForumsTask", .course⟩,
  ⟨"CourseStructureTask", .course⟩,
  ⟨"CourseContentTask", .course⟩,
  ⟨"CourseRoleTask", .course⟩,
  ⟨"ForumRoleTask", .course⟩,
  ⟨"OrgEmailOptInTask", .org⟩,
  ⟨"AssessmentAssessmentTask", .course⟩,
  ⟨"AssessmentAssessmentFeedbackTask", .course⟩,
  ⟨"AssessmentAssessmentFeedbackAssessmentsTask", .course⟩,
  ⟨"AssessmentAssessmentFeedbackOptionsTask", .course⟩,
  ⟨"AssessmentAssessmentFeedbackOptionTask", .course⟩,
  ⟨"AssessmentAssessmentPartTask", .course⟩,
  ⟨"AssessmentCriterionTask", .course⟩,
  ⟨"AssessmentCriterionOptionTask", .course⟩,
  ⟨"AssessmentPeerWorkflowTask", .course⟩,
  ⟨"AssessmentPeerWorkflowItemTask", .course⟩,
  ⟨"AssessmentRubricTask", .course⟩,
  ⟨"AssessmentStudentTrainingWorkflow", .course⟩,
  ⟨"AssessmentStudentTrainingWorkflowItemTask", .course⟩,
  ⟨"AssessmentTrainingExampleTask", .course⟩,
  ⟨"AssessmentTrainingExampleOptionsSelectedTask", .course⟩,
  ⟨"SubmissionsScoreTask", .course⟩,
  ⟨"SubmissionsScoreSummaryTask", .course⟩,
  ⟨"SubmissionsStudentItemTask", .course⟩,
  ⟨"SubmissionsSubmissionTask", .course⟩,
  ⟨"WorkflowAssessmentWorkflowTask", .course⟩,
  ⟨"WorkflowAssessmentWorkflowStepTask", .course⟩,
  ⟨"StudentAnonymousUserIDTask", .course⟩,
  ⟨"CourseCreditEligibilityTask", .course⟩,
  ⟨"CourseGroupCohortMembershipTask", .course⟩]

/-- Modelled from the spec: exporter/util.py (filter_keys) is not among the
sources; per spec section 4.2, with an empty request every entry of the
dictionary survives, otherwise only the requested keys survive and an
included name with no matching entry is silently dropped.  The model is an
order-preserving restriction of whatever entry list it is given (the entry
order itself comes from the dict enumeration, see _get_selected_tasks). -/
def filter_keys (d : List (String × TaskC)) (keys : List String) :
    List (String × TaskC) :=
  if keys.isEmpty then d else d.filter (fun p => keys.contains p.1)

/-- main.py:117-125 _get_selected_tasks: build the lower-cased name
dictionary restricted to the scope class, apply filter_keys for the requested
names, and drop the excluded names while listing the filtered dict's items.
dictItems models the CPython 2 hash-order enumeration of the dict's entries
at list(filtered_tasks.items()) (main.py:123): an external reordering that
the source does not determine. -/
def _get_selected_tasks
    (dictItems : List (String × TaskC) → List (String × TaskC))
    (selCls : SelCls) (tasksFromOptions excludedTasks : List String) :
    List TaskC :=
  let availableTasks :=
    (DEFAULT_TASKS.filter (fun t => matchesCls selCls t)).map
      (fun t => (t.pyName.toLower, t))
  let requestedTaskNames := tasksFromOptions.map String.toLower
  let excludedTaskNames := excludedTasks.map String.toLower
  let filteredTasks := filter_keys availableTasks requestedTaskNames
  ((dictItems filteredTasks).filter
      (fun p => !(excludedTaskNames.contains p.1))).map
    (fun p => p.2)

/-! ### Course resolution (main.py:262-365 and
course_export.py:69-86).  The external course-listing collaborator (a
django-admin invocation writing one course id per line to a temp file) is
modelled by its result: either the raised exception's message or the list of
raw lines. -/

/-- main.py:345-365 _find_all_courses: run the find-courses task; on ANY
exception (bare except) log a warning and return the empty list; otherwise
strip the lines and keep the non-blank ones. -/
def _find_all_courses (runResult : Except String (List String)) : List String :=
  match runResult with
  | .error _ => []
  | .ok lines => (lines.map String.trim).filter (fun l => !l.isEmpty)

/-- main.py:289-303 filter_courses: keep the courses whose organization
(extracted by the external CourseKey parser, passed as orgOf) matches one of
the requested organization names case-insensitively. -/
def filter_courses (courses : List String) (organization_names : List String)
    (orgOf : String → String) : List String :=
  let lowered := organization_names.map String.toLower
  courses.filter (fun course => lowered.contains (orgOf course).toLower)

/-- Insertion of a string into a sorted list (ascending). -/
def insertSorted (s : String) : List String → List String
  | [] => [s]
  | t :: r => if s ≤ t then s :: t :: r else t :: insertSorted s r

/-- Python sorted(set(l)): dedup then sort ascending. -/
def sortDedup (l : List String) : List String :=
  (l.eraseDups).foldr insertSorted []

/-- main.py:262-286 get_org_courses: intersect the configured courses with
the listing result when both are non-empty, fall back to the listing alone
when only it is non-empty, keep only the requested organizations' courses,
and return them sorted without duplicates.  No exception escapes: a total
listing failure has already been converted to [] by _find_all_courses. -/
def get_org_courses (organization : String) (otherNames : List String)
    (configuredCourses : List String) (orgOf : String → String)
    (runResult : Except String (List String)) : List String :=
  let courses := configuredCourses
  let all_courses := _find_all_courses runResult
  let courses :=
    if !courses.isEmpty && !all_courses.isEmpty then
      courses.filter (fun c => all_courses.contains c)
    else if !all_courses.isEmpty then all_courses
    else courses
  let organization_names := organization :: otherNames
  let courses := filter_courses courses organization_names orgOf
  sortDedup courses

/-- The loop of course_export.py:73-80: for each environment, take the
listing (already flattened to [] on failure), record an environment for each
still-unfound requested course present in it, and drop those courses from
the unfound set. -/
def get_courses_with_env_go (listing : String → Except String (List String)) :
    List String → List String → List (String × String) →
      Except TaskException (List (String × String))
  | [], courses, acc =>
      if courses.isEmpty then .ok acc
      else .error (.fatalTaskError "Failed to find courses in configured environments.")
  | env :: rest, courses, acc =>
      let all_courses := _find_all_courses (listing env)
      if all_courses.isEmpty then
        get_courses_with_env_go listing rest courses acc
      else
        let found := courses.filter (fun c => all_courses.contains c)
        let acc1 := acc ++ found.map (fun c => (c, env))
        let courses1 := courses.filter (fun c => !(all_courses.contains c))
        get_courses_with_env_go listing rest courses1 acc1

/-- course_export.py:69-86 get_courses_with_env: walk the environments and
raise FatalTaskError when some requested course was found in none of them. -/
def get_courses_with_env (requestedCourses : List String) (envs : List String)
    (listing : String → Except String (List String)) :
    Except TaskException (List (String × String)) :=
  get_courses_with_env_go listing envs requestedCourses []

/-- The per-course inner loop of main.py:110-112: run the course tasks once
per course, with the course bound in the context, extending the artifact
list. -/
def runCourseLoop (courseTasks : List ATask) (kwargs : Ctx) :
    List String → FS → Except RunErr (List String × FS)
  | [], fs => .ok ([], fs)
  | c :: rest, fs =>
      match run_tasks courseTasks (ctxSet kwargs "course" c) fs with
      | .error e => .error e
      | .ok r =>
          match runCourseLoop courseTasks kwargs rest r.fs with
          | .error e => .error e
          | .ok (arts, fs1) => .ok (r.artifacts ++ arts, fs1)

/-- The per-environment body of main.py:90-114 export_organization_data:
resolve the organization's courses (swallowing listing failures), run the
organization tasks, then the course tasks for each resolved course,
returning the combined artifact list; only a FatalTaskError escapes. -/
def export_org_env (orgTasks courseTasks : List ATask) (kwargs : Ctx) (fs : FS)
    (organization : String) (otherNames configuredCourses : List String)
    (orgOf : String → String) (runResult : Except String (List String)) :
    Except RunErr (List String) :=
  let courses := get_org_courses organization otherNames configuredCourses orgOf runResult
  match run_tasks orgTasks kwargs fs with
  | .error e => .error e
  | .ok r =>
      match runCourseLoop courseTasks kwargs courses r.fs with
      | .error e => .error e
      | .ok (arts, _) => .ok (r.artifacts ++ arts)

/-! ## Claims -/

/-- C10: ForumsTask.get_filename is an exception to the standard filename
scheme: it returns work_dir joined with
(course entity name)-(environment).(extension), where the extension resolves
to "mongo" through the MongoTask mixin, it contains no task-name component
(contrast get_filename_template), and it leaves the filesystem untouched (no
subdirectory is created). -/
theorem forums_task_filename_shape (k : CourseKeyParts)
    (environment workDir : String) (fs : FS) :
    ForumsTask.get_filename k environment workDir fs =
      (joinPath workDir (courseEntityName k ++ "-" ++ environment ++ "." ++ "mongo"),
        fs) := rfl

set_option maxRecDepth 40000 in
/-- C3 (code evaluated at the failing input of the repository's own tests):
with the course entity of course-v1:edX+DemoX+Demo_Course, the task name
test_course_task and a 996-character name, get_filename_template returns a
1039-character filename - its 1035-character stem is neither truncated to the
255-character ceiling nor given a disambiguating digest, although
tests/test_tasks.py (test_course_task_get_filename_on_multiple_sizes,
test_course_task_get_filename_on_similar_names) asserts a stem of at most 235
characters under a mocked ceiling of 255 and patches
exporter.tasks._get_max_filename_length, a function that does not exist in
tasks.py. -/
theorem long_name_exceeds_filename_limit :
    (get_filename_template "edX-DemoX-Demo_Course" "test_course_task"
        (String.mk (List.replicate 996 'a')) "csv").length = 1039 ∧
      255 < 1039 := by
  constructor
  · decide
  · decide

/-- C8 counterexample: the stem builder of tasks.py replaces only characters
with code point above 128, so the unsafe ASCII space survives substitution -
the output of _substitute_non_ascii_chars on "a b" still contains a character
outside the safe set {letters, digits, underscore, period, hyphen}. -/
theorem substitute_keeps_unsafe_space :
    _substitute_non_ascii_chars "a b" = "a b" ∧ safeCharB ' ' = false ∧
      ' ' ∈ (_substitute_non_ascii_chars "a b").data := by
  refine ⟨by decide, by decide, by decide⟩

/-- C8 amended: tasks.py's _substitute_non_ascii_chars keeps every character
with code point at most 128 unchanged and replaces the rest with underscores,
always preserving the length; the safe-set guarantee holds for the regex
substitution of course_export.get_filename_safe_course_id, which replaces
every character outside the safe set and also preserves the length. -/
theorem substitution_characterization (s : String) :
    (_substitute_non_ascii_chars s).length = s.length ∧
      (_substitute_non_ascii_chars s).data =
        s.data.map (fun c => if c.toNat > 128 then '_' else c) ∧
      (get_filename_safe_sub '_' s).length = s.length ∧
      (get_filename_safe_sub '_' s).data.all safeCharB = true := by
  refine ⟨?_, rfl, ?_, ?_⟩
  · exact List.length_map s.data _
  · exact List.length_map s.data _
  · rw [List.all_eq_true]
    intro c hc
    simp only [get_filename_safe_sub, List.mem_map] at hc
    obtain ⟨x, _, hx⟩ := hc
    by_cases h : safeCharB x
    · rw [← hx, if_pos h]
      exact h
    · rw [← hx, if_neg h]
      decide

/-- The selection pipeline applied to an entry list in a FIXED enumeration
order (a pure list computation; the program's actual enumeration order is the
external dictItems parameter of _get_selected_tasks). -/
theorem select_pipeline (l : List TaskC) (m : TaskC → Bool) (req exc : List String) :
    ((filter_keys ((l.filter m).map (fun t => (t.pyName.toLower, t))) req).filter
        (fun p => !(exc.contains p.1))).map (fun p => p.2) =
      l.filter (fun t => m t && (req.isEmpty || req.contains t.pyName.toLower) &&
        !(exc.contains t.pyName.toLower)) := by
  unfold filter_keys
  by_cases hreq : req.isEmpty
  · rw [if_pos hreq, List.filter_map, List.map_map]
    have hmap : ((fun p : String × TaskC => p.2) ∘ fun t : TaskC => (t.pyName.toLower, t)) =
        fun t : TaskC => t := rfl
    rw [hmap, List.map_id', List.filter_filter]
    apply List.filter_congr
    intro a _
    cases hm : m a <;> simp [hreq, hm, Function.comp]
  · rw [if_neg hreq, List.filter_map, List.filter_filter, List.filter_map, List.map_map]
    have hmap : ((fun p : String × TaskC => p.2) ∘ fun t : TaskC => (t.pyName.toLower, t)) =
        fun t : TaskC => t := rfl
    rw [hmap, List.map_id', List.filter_filter]
    apply List.filter_congr
    intro a _
    have hreqb : req.isEmpty = false := by
      cases h : req.isEmpty
      · rfl
      · exact absurd h hreq
    cases hm : m a <;> simp [hreqb, hm, Function.comp, Bool.and_comm]

/-- What main.py:117-125 does determine, independently of the CPython dict
enumeration: for every enumeration that is a permutation of the dict's
entries, the selector's output is a permutation of the surviving catalog
entries - the same membership (and multiplicity) whatever the hash order.
The ORDER of the output is the enumeration's order, which the source leaves
to the interpreter; the repository's own tests compare sorted outputs for
exactly this reason. -/
theorem selected_tasks_perm
    (dictItems : List (String × TaskC) → List (String × TaskC))
    (hperm : ∀ l, (dictItems l).Perm l)
    (selCls : SelCls) (req exc : List String) :
    (_get_selected_tasks dictItems selCls req exc).Perm
      (DEFAULT_TASKS.filter (fun t =>
        matchesCls selCls t &&
          ((req.map String.toLower).isEmpty ||
            (req.map String.toLower).contains t.pyName.toLower) &&
          !((exc.map String.toLower).contains t.pyName.toLower))) := by
  have hp := (hperm (filter_keys
    ((DEFAULT_TASKS.filter (fun t => matchesCls selCls t)).map
      (fun t => (t.pyName.toLower, t)))
    (req.map String.toLower))).filter
    (fun p => !((exc.map String.toLower).contains p.1))
  have hm := hp.map (fun p : String × TaskC => p.2)
  rw [select_pipeline DEFAULT_TASKS (fun t => matchesCls selCls t)
    (req.map String.toLower) (exc.map String.toLower)] at hm
  exact hm

/-! ### Helper lemmas on the runner. -/

/-- Removing a file after checking for its existence (tasks.py:75-76) leaves
no file at that path, whether or not it existed. -/
theorem FS.getFile_condRemove_self (fs : FS) (p : String) :
    (if fs.existsFile p then fs.removeFile p else fs).getFile p = none := by
  by_cases h : fs.existsFile p
  · rw [if_pos h]
    exact FS.getFile_removeFile_self fs p
  · rw [if_neg h]
    rw [FS.existsFile] at h
    cases hgf : fs.getFile p with
    | none => rfl
    | some v =>
      rw [hgf] at h
      exact absurd rfl h

/-- A path never equals itself with the ".failed" suffix appended. -/
theorem append_failed_ne (p : String) : p ++ ".failed" ≠ p := by
  intro h
  have hlen := congrArg String.length h
  rw [String.length_append] at hlen
  have h7 : String.length ".failed" = 7 := rfl
  rw [h7] at hlen
  omega

/-- Inversion of _run_task on a completed task: the artifact it returns and
its mutated context copy. -/
theorem _run_task_ok_inv (t : ATask) (kwargs : Ctx) (fs : FS)
    (name : String) (fs1 : FS) (mc : Ctx)
    (h : _run_task t kwargs fs = .ok (name, fs1, mc)) :
    name = artifactOf kwargs t ∧ mc = taskMutatedCtx t kwargs := by
  unfold _run_task at h
  unfold artifactOf
  cases hout : t.outcome kwargs <;> rw [hout] at h <;> simp at h
  · exact ⟨h.1.symm, h.2.2.symm⟩
  · exact ⟨h.1.symm, h.2.2.symm⟩

/-- Every context handed to a loop iteration of run_tasks is the (copy of
the) original kwargs. -/
theorem run_tasks_go_entries (ctx : Ctx) :
    ∀ (rest : List ATask) (fs : FS) (arts : List String) (ex : List ATask)
      (en mu : List Ctx), (∀ c ∈ en, c = ctx) →
      ∀ c ∈ entriesOfRun (run_tasks_go ctx rest fs arts ex en mu), c = ctx := by
  intro rest
  induction rest with
  | nil => intro fs arts ex en mu hen c hc; exact hen c hc
  | cons t rest ih =>
    intro fs arts ex en mu hen c hc
    have hen1 : ∀ x ∈ en ++ [copyDict ctx], x = ctx := by
      intro x hx
      rcases List.mem_append.mp hx with h1 | h1
      · exact hen x h1
      · rw [List.mem_singleton.mp h1]
        rfl
    rw [run_tasks_go] at hc
    by_cases hskip : (t.isOrgEmailOptIn && envIsEdge (copyDict ctx)) = true
    · rw [if_pos hskip] at hc
      exact ih fs arts ex _ mu hen1 c hc
    · rw [if_neg hskip] at hc
      cases hrun : _run_task t (copyDict ctx) fs with
      | ok v =>
        obtain ⟨name, fs1, mc⟩ := v
        rw [hrun] at hc
        exact ih fs1 (arts ++ [name]) (ex ++ [t]) _ (mu ++ [mc]) hen1 c hc
      | error u =>
        rw [hrun] at hc
        exact hen1 c hc

/-- The recorded mutated context copies of the run tasks line up with
taskMutatedCtx applied to the original kwargs. -/
theorem run_tasks_go_mutated (ctx : Ctx) :
    ∀ (rest : List ATask) (fs : FS) (arts : List String) (ex : List ATask)
      (en mu : List Ctx), mu = ex.map (fun t => taskMutatedCtx t ctx) →
      mutatedOfRun (run_tasks_go ctx rest fs arts ex en mu) =
        (executedOfRun (run_tasks_go ctx rest fs arts ex en mu)).map
          (fun t => taskMutatedCtx t ctx) := by
  intro rest
  induction rest with
  | nil => intro fs arts ex en mu hmu; simpa [run_tasks_go, mutatedOfRun, executedOfRun]
  | cons t rest ih =>
    intro fs arts ex en mu hmu
    rw [run_tasks_go]
    by_cases hskip : (t.isOrgEmailOptIn && envIsEdge (copyDict ctx)) = true
    · rw [if_pos hskip]
      exact ih fs arts ex _ mu hmu
    · rw [if_neg hskip]
      cases hrun : _run_task t (copyDict ctx) fs with
      | ok v =>
        obtain ⟨name, fs1, mc⟩ := v
        have hmc := (_run_task_ok_inv t (copyDict ctx) fs name fs1 mc hrun).2
        apply ih
        rw [hmu, hmc]
        simp [copyDict]
      | error u =>
        simpa [mutatedOfRun, executedOfRun] using hmu

/-- C9: every task iteration of run_tasks receives (a copy of) the original
context: mutated keys of one task (its recorded mutated copy) are never
observable in the context handed to a sibling or later task, and the
original mapping is what every iteration starts from. -/
theorem context_isolation_run_tasks (ts : List ATask) (ctx : Ctx) (fs : FS) :
    entriesOfRun (run_tasks ts ctx fs) =
      List.replicate (entriesOfRun (run_tasks ts ctx fs)).length ctx ∧
      mutatedOfRun (run_tasks ts ctx fs) =
        (executedOfRun (run_tasks ts ctx fs)).map
          (fun t => taskMutatedCtx t ctx) := by
  constructor
  · exact List.eq_replicate_of_mem
      (run_tasks_go_entries ctx ts fs [] [] [] [] (by intro c hc; cases hc))
  · exact run_tasks_go_mutated ctx ts fs [] [] [] [] rfl

/-- On the edge environment no completed task is the opt-in task
(main.py:137-139 skips it before _run_task is called). -/
theorem run_tasks_go_no_optin (ctx : Ctx) (hedge : envIsEdge ctx = true) :
    ∀ (rest : List ATask) (fs : FS) (arts : List String) (ex : List ATask)
      (en mu : List Ctx), ex.all (fun t => !t.isOrgEmailOptIn) = true →
      (executedOfRun (run_tasks_go ctx rest fs arts ex en mu)).all
        (fun t => !t.isOrgEmailOptIn) = true := by
  intro rest
  induction rest with
  | nil => intro fs arts ex en mu hex; simpa [run_tasks_go, executedOfRun] using hex
  | cons t rest ih =>
    intro fs arts ex en mu hex
    rw [run_tasks_go]
    cases hopt : t.isOrgEmailOptIn
    · simp only [Bool.false_and, Bool.false_eq_true, if_false]
      cases hrun : _run_task t (copyDict ctx) fs with
      | ok v =>
        obtain ⟨name, fs1, mc⟩ := v
        refine ih fs1 (arts ++ [name]) (ex ++ [t]) (en ++ [copyDict ctx]) (mu ++ [mc]) ?_
        rw [List.all_append, hex]
        simp [hopt]
      | error u =>
        simpa [executedOfRun] using hex
    · simp only [Bool.true_and, copyDict, hedge, if_true]
      exact ih fs arts ex _ mu hex

/-- In a completed batch the artifact list is exactly one artifact per run
task: the task's filename, or its ".failed" placeholder on a non-fatal
failure. -/
theorem run_tasks_go_artifacts (ctx : Ctx) :
    ∀ (rest : List ATask) (fs : FS) (arts : List String) (ex : List ATask)
      (en mu : List Ctx), arts = ex.map (artifactOf ctx) →
      ∀ r, run_tasks_go ctx rest fs arts ex en mu = .ok r →
        r.artifacts = r.executed.map (artifactOf ctx) := by
  intro rest
  induction rest with
  | nil =>
    intro fs arts ex en mu harts r hr
    rw [run_tasks_go] at hr
    cases hr
    simpa using harts
  | cons t rest ih =>
    intro fs arts ex en mu harts r hr
    rw [run_tasks_go] at hr
    by_cases hskip : (t.isOrgEmailOptIn && envIsEdge (copyDict ctx)) = true
    · rw [if_pos hskip] at hr
      exact ih fs arts ex _ mu harts r hr
    · rw [if_neg hskip] at hr
      cases hrun : _run_task t (copyDict ctx) fs with
      | ok v =>
        obtain ⟨name, fs1, mc⟩ := v
        rw [hrun] at hr
        refine ih fs1 (arts ++ [name]) (ex ++ [t]) (en ++ [copyDict ctx])
          (mu ++ [mc]) ?_ r hr
        rw [harts, List.map_append]
        have hname := (_run_task_ok_inv t (copyDict ctx) fs name fs1 mc hrun).1
        rw [hname]
        rfl
      | error u =>
        rw [hrun] at hr
        exact Except.noConfusion hr

/-- C4: whenever the execution context's environment is "edge", run_tasks
never runs OrgEmailOptInTask - every completed task of the batch is a
non-opt-in task - and every artifact of a completed batch comes from one of
those run tasks, so the opt-in task contributes no artifact, whatever
inclusion and exclusion lists produced the task list. -/
theorem edge_skips_opt_in_task (ts : List ATask) (ctx : Ctx) (fs : FS)
    (hedge : ctxGet ctx "environment" = some "edge") :
    (executedOfRun (run_tasks ts ctx fs)).all (fun t => !t.isOrgEmailOptIn) = true ∧
      ∀ r, run_tasks ts ctx fs = .ok r →
        r.artifacts = r.executed.map (artifactOf ctx) := by
  have he : envIsEdge ctx = true := by simp [envIsEdge, hedge]
  exact ⟨run_tasks_go_no_optin ctx he ts fs [] [] [] [] rfl,
    fun r hr => run_tasks_go_artifacts ctx ts fs [] [] [] [] rfl r hr⟩

/-- A two-task demo batch for the edge environment: the opt-in task followed
by a plain org task. -/
def wOptInTask : ATask :=
  { pyName := "OrgEmailOptInTask"
    getFilename := fun _ => "/w/testx-email_opt_in-edge-analytics.csv"
    outcome := fun _ => .success
    isOrgEmailOptIn := true }

def wPlainTask : ATask :=
  { pyName := "CourseEnrollmentTask"
    getFilename := fun _ => "/w/testx-student_courseenrollment-edge-analytics.sql"
    outcome := fun _ => .success }

def wEdgeCtx : Ctx := [("environment", "edge"), ("organization", "testx")]

theorem edge_skips_opt_in_task_witness :
    (executedOfRun (run_tasks [wOptInTask, wPlainTask] wEdgeCtx FS.empty)).all
      (fun t => !t.isOrgEmailOptIn) = true :=
  (edge_skips_opt_in_task [wOptInTask, wPlainTask] wEdgeCtx FS.empty (by decide)).1

/-- C2: a task that raises FatalTaskError aborts the batch at once: run_tasks
propagates the error, the error state records the unchanged filesystem (no
".failed" placeholder was written for the fatal task), an empty list of
completed tasks, and a single processed iteration - tasks 2 and 3 of a
three-task batch never run and no artifact of theirs exists anywhere. -/
theorem fatal_abort_three_tasks (t1 t2 t3 : ATask) (ctx : Ctx) (fs : FS)
    (e : String) (henv : ctxGet ctx "environment" = some e) (hne : e ≠ "edge")
    (h1 : t1.outcome ctx = .fatal) :
    run_tasks [t1, t2, t3] ctx fs = .error ⟨fs, [], [ctx], [], t1⟩ := by
  have hedge : envIsEdge ctx = false := by
    simp only [envIsEdge, henv]
    simp
    exact hne
  simp [run_tasks, run_tasks_go, copyDict, hedge, _run_task, h1]

def wFatalTask : ATask :=
  { pyName := "StudentModuleTask"
    getFilename := fun _ => "/w/testx-DX-24-courseware_studentmodule-a.sql"
    outcome := fun _ => .fatal }

def wCtx : Ctx := [("environment", "prod"), ("organization", "testx")]

def wSecondTask : ATask :=
  { pyName := "TeamsTask"
    getFilename := fun _ => "/w/testx-DX-24-teams-a.sql"
    outcome := fun _ => .success }

def wThirdTask : ATask :=
  { pyName := "CourseGradesTask"
    getFilename := fun _ => "/w/testx-DX-24-grades_persistentcoursegrade-a.sql"
    outcome := fun _ => .success }

theorem fatal_abort_three_tasks_witness :
    run_tasks [wFatalTask, wSecondTask, wThirdTask] wCtx FS.empty =
      .error ⟨FS.empty, [], [wCtx], [], wFatalTask⟩ :=
  fatal_abort_three_tasks wFatalTask wSecondTask wThirdTask wCtx FS.empty
    "prod" (by decide) (by decide) rfl

/-- C1: in a three-task batch whose second task fails non-fatally, the batch
completes with exactly three artifacts - the first task's file, the second
task's placeholder path ending in ".failed", and the third task's file - all
three tasks execute (the third still runs after the failure), the placeholder
file holds the fixed failure message, and no file remains at the second
task's resolved output path (any partial output was removed). -/
theorem failure_isolation_three_tasks (t1 t2 t3 : ATask) (ctx : Ctx) (fs : FS)
    (e : String) (henv : ctxGet ctx "environment" = some e) (hne : e ≠ "edge")
    (h1 : t1.outcome ctx = .success) (h2 : t2.outcome ctx = .failure)
    (h3 : t3.outcome ctx = .success)
    (hne32 : t3.getFilename ctx ≠ t2.getFilename ctx)
    (hne32f : t3.getFilename ctx ≠ t2.getFilename ctx ++ ".failed") :
    artifactsOfRun (run_tasks [t1, t2, t3] ctx fs) =
        [t1.getFilename ctx, t2.getFilename ctx ++ ".failed", t3.getFilename ctx] ∧
      executedOfRun (run_tasks [t1, t2, t3] ctx fs) = [t1, t2, t3] ∧
      (fsOfRun (run_tasks [t1, t2, t3] ctx fs)).getFile
        (t2.getFilename ctx ++ ".failed") = some failedMessage ∧
      (fsOfRun (run_tasks [t1, t2, t3] ctx fs)).getFile (t2.getFilename ctx) =
        none := by
  have hedge : envIsEdge ctx = false := by
    simp only [envIsEdge, henv]
    simp
    exact hne
  refine ⟨?_, ?_, ?_, ?_⟩
  · simp [run_tasks, run_tasks_go, copyDict, hedge, _run_task, h1, h2, h3,
      write_failed_file, artifactsOfRun]
  · simp [run_tasks, run_tasks_go, copyDict, hedge, _run_task, h1, h2, h3,
      write_failed_file, executedOfRun]
  · simp only [run_tasks, run_tasks_go, copyDict, hedge, Bool.and_false,
      Bool.false_eq_true, if_false, _run_task, h1, h2, h3, write_failed_file,
      fsOfRun]
    rw [FS.getFile_writeFile_other _ _ _ _ (Ne.symm hne32f),
      FS.getFile_writeFile_self]
  · simp only [run_tasks, run_tasks_go, copyDict, hedge, Bool.and_false,
      Bool.false_eq_true, if_false, _run_task, h1, h2, h3, write_failed_file,
      fsOfRun]
    rw [FS.getFile_writeFile_other _ _ _ _ (Ne.symm hne32),
      FS.getFile_writeFile_other _ _ _ _ (Ne.symm (append_failed_ne _))]
    exact FS.getFile_condRemove_self _ _

def wGoodTask1 : ATask :=
  { pyName := "CourseEnrollmentTask"
    getFilename := fun _ => "/w/testx-DX-24-student_courseenrollment-a.sql"
    outcome := fun _ => .success }

def wFailingTask : ATask :=
  { pyName := "UserIDMapTask"
    getFilename := fun _ => "/w/testx-DX-24-user_id_map-a.sql"
    outcome := fun _ => .failure
    leavesPartialOutput := true }

def wGoodTask3 : ATask :=
  { pyName := "AuthUserTask"
    getFilename := fun _ => "/w/testx-DX-24-auth_user-a.sql"
    outcome := fun _ => .success }

theorem failure_isolation_three_tasks_witness :
    artifactsOfRun (run_tasks [wGoodTask1, wFailingTask, wGoodTask3] wCtx FS.empty) =
        ["/w/testx-DX-24-student_courseenrollment-a.sql",
          "/w/testx-DX-24-user_id_map-a.sql.failed",
          "/w/testx-DX-24-auth_user-a.sql"] ∧
      executedOfRun (run_tasks [wGoodTask1, wFailingTask, wGoodTask3] wCtx FS.empty) =
        [wGoodTask1, wFailingTask, wGoodTask3] ∧
      (fsOfRun (run_tasks [wGoodTask1, wFailingTask, wGoodTask3] wCtx FS.empty)).getFile
        "/w/testx-DX-24-user_id_map-a.sql.failed" = some failedMessage ∧
      (fsOfRun (run_tasks [wGoodTask1, wFailingTask, wGoodTask3] wCtx FS.empty)).getFile
        "/w/testx-DX-24-user_id_map-a.sql" = none :=
  failure_isolation_three_tasks wGoodTask1 wFailingTask wGoodTask3 wCtx FS.empty
    "prod" (by decide) (by decide) rfl rfl rfl (by decide) (by decide)

/-- An organization-scope demo task used to show the batch proceeding after a
total listing failure. -/
def wOrgDemoTask : ATask :=
  { pyName := "OrgEmailOptInTask"
    getFilename := fun _ => "/w/orgx-email_opt_in-a.csv"
    outcome := fun _ => .success
    isOrgEmailOptIn := true }

/-- C5 counterexample: when the external course listing raises for the (only)
configured environment, the per-organization orchestrator does NOT raise a
Fatal error: _find_all_courses swallows the exception (bare except,
main.py:357-359) and returns the empty list, get_org_courses returns the
empty course set normally, and the per-environment export completes with
Except.ok (the organization tasks run, zero course tasks run) - the batch
silently proceeds with an empty course set. -/
theorem total_listing_failure_proceeds :
    _find_all_courses (Except.error "listing failed") = [] ∧
      get_org_courses "orgx" [] [] (fun _ => "") (Except.error "listing failed") = [] ∧
      export_org_env [wOrgDemoTask] [] wCtx FS.empty "orgx" [] []
        (fun _ => "") (Except.error "listing failed") =
          .ok ["/w/orgx-email_opt_in-a.csv"] :=
  ⟨rfl, rfl, rfl⟩

/-- C5 amended: only the per-course export path raises on a total listing
failure, and only when at least one course was requested: if every
environment's listing invocation raises, get_courses_with_env raises
FatalTaskError rather than returning an (empty) mapping. -/
theorem course_export_listing_failure_fatal (requested envs : List String)
    (listing : String → Except String (List String))
    (hreq : requested ≠ [])
    (hfail : ∀ env ∈ envs, ∃ msg, listing env = .error msg) :
    get_courses_with_env requested envs listing =
      .error (.fatalTaskError "Failed to find courses in configured environments.") := by
  have hne : requested.isEmpty = false := by
    cases requested
    · exact absurd rfl hreq
    · rfl
  unfold get_courses_with_env
  induction envs with
  | nil =>
    rw [get_courses_with_env_go, if_neg]
    rw [hne]
    exact Bool.false_ne_true
  | cons env rest ih =>
    obtain ⟨msg, hmsg⟩ := hfail env (List.mem_cons_self env rest)
    rw [get_courses_with_env_go, hmsg]
    rw [show _find_all_courses (Except.error msg) = [] from rfl]
    rw [if_pos (show (List.isEmpty ([] : List String)) = true from rfl)]
    exact ih (fun e he => hfail e (List.mem_cons_of_mem env he))

theorem course_export_listing_failure_fatal_witness :
    (["course-v1:orgx+C1+2024"] ≠ ([] : List String)) ∧
      get_courses_with_env ["course-v1:orgx+C1+2024"] ["prod", "edge"]
          (fun _ => .error "connection refused") =
        .error (.fatalTaskError "Failed to find courses in configured environments.") :=
  ⟨by decide,
    course_export_listing_failure_fatal ["course-v1:orgx+C1+2024"] ["prod", "edge"]
      (fun _ => .error "connection refused") (by decide)
      (fun env _ => ⟨"connection refused", rfl⟩)⟩

/-- C6: CopyS3FileTask.run with dry_run false (and the aws executable
present) always issues the marker head-object check first, with its raised
retry ceiling; a failing marker check raises FatalTaskError; with the marker
present but the source object absent the task completes without error and
without any copy invocation; only when both exist is the copy attempted, and
the copy call carries max_tries = MAX_TRIES_FOR_COPY_FILE_FROM_S3 in its own
per-task copy of the kwargs while the source check before it still saw the
original max_tries; a failing copy re-raises CalledProcessError. -/
theorem copy_s3_file_task_semantics (kw : CopyKw) (w : S3World)
    (filename : String) (haws : w.awsFound = true) :
    (w.markerExists = false →
      CopyS3FileTask.run filename false kw w =
        .error (.fatalTaskError
          ("Unable to find success marker for export " ++ s3MarkerKey kw))) ∧
      (w.markerExists = true → w.sourceExists = false →
        CopyS3FileTask.run filename false kw w =
          .ok [S3Act.shell (headCmd kw.pipelineBucket (s3MarkerKey kw))
                (some MAX_TRIES_FOR_MARKER_FILE_CHECK),
              S3Act.shell (headCmd kw.pipelineBucket (s3SourceKey kw filename))
                kw.maxTries]) ∧
      (w.markerExists = true → w.sourceExists = true → w.copySucceeds = true →
        CopyS3FileTask.run filename false kw w =
          .ok [S3Act.shell (headCmd kw.pipelineBucket (s3MarkerKey kw))
                (some MAX_TRIES_FOR_MARKER_FILE_CHECK),
              S3Act.shell (headCmd kw.pipelineBucket (s3SourceKey kw filename))
                kw.maxTries,
              S3Act.shell (cpCmd kw.pipelineBucket (s3SourceKey kw filename) filename)
                (some MAX_TRIES_FOR_COPY_FILE_FROM_S3)]) ∧
      (w.markerExists = true → w.sourceExists = true → w.copySucceeds = false →
        CopyS3FileTask.run filename false kw w = .error .calledProcessError) := by
  refine ⟨?_, ?_, ?_, ?_⟩
  · intro hm
    simp [CopyS3FileTask.run, haws, hm]
  · intro hm hs
    simp [CopyS3FileTask.run, haws, hm, hs]
  · intro hm hs hc
    simp [CopyS3FileTask.run, haws, hm, hs, hc]
  · intro hm hs hc
    simp [CopyS3FileTask.run, haws, hm, hs, hc]

def wCopyKw : CopyKw :=
  { externalPfx := "databases"
    environment := "prod"
    pipelineBucket := "pipeline-bucket"
    maxTries := none }

def wCopyWorld : S3World :=
  { awsFound := true
    markerExists := true
    sourceExists := false
    copySucceeds := true }

theorem copy_s3_file_task_semantics_witness :
    CopyS3FileTask.run "/w/testx-DX-24-courseware_studentmodule-a.sql" false
        wCopyKw wCopyWorld =
      .ok [S3Act.shell (headCmd wCopyKw.pipelineBucket (s3MarkerKey wCopyKw))
            (some MAX_TRIES_FOR_MARKER_FILE_CHECK),
          S3Act.shell
            (headCmd wCopyKw.pipelineBucket
              (s3SourceKey wCopyKw "/w/testx-DX-24-courseware_studentmodule-a.sql"))
            wCopyKw.maxTries] :=
  ((copy_s3_file_task_semantics wCopyKw wCopyWorld
      "/w/testx-DX-24-courseware_studentmodule-a.sql" rfl).2.1) rfl rfl
